import Mathlib

/-!
Verification of the lesson-to-slides pipeline of the Lesson-Visuals-AI
repository (server/routes.ts and server/scriptGenerator.ts), shallowly
embedded in Lean.

Embedding conventions:
* JavaScript strings are modelled as Lean `String`.  The JS string
  methods (`toLowerCase`, `split`, `substring`, `trim`, `join`) are
  implemented structurally over `String.data` so that every definition
  evaluates by kernel reduction; `length` counts code points where JS
  counts UTF-16 units (identical on the BMP text the pipeline handles),
  and lower-casing is the ASCII case map (the classifier keywords are
  ASCII).
* Optional / possibly-`undefined` fields are `Option`; JS truthiness of
  an optional string (`undefined` and `""` are falsy) is `jsTruthy`, and
  the `a || b` fallback idiom on strings is `jsOrS`.
* JS numbers are modelled as `Rat`.  All arithmetic performed by the code
  (division by 2.5, multiplication by the pacing factors, `Math.round`,
  the SRT timestamp decomposition) stays far enough from rounding
  boundaries that exact rational arithmetic coincides with IEEE doubles.
* Random slide ids (`generateId`) and the `sequence` counter are omitted
  from the slide records: ids are irrelevant nondeterminism, and the
  counter is incremented exactly once per emitted slide, so `sequence`
  always equals the slide's index in the returned list.
* `example` and `section` are Lean keywords, so the source names
  `example` (field / slide archetype) and `section` (binder) appear as
  `example'` and `s` below.
-/

/-- Prefix test on character lists (used to model `String.includes`). -/
def listPrefixOf : List Char → List Char → Bool
  | [], _ => true
  | _ :: _, [] => false
  | a :: as, b :: bs => a == b && listPrefixOf as bs

/-- Infix test on character lists (used to model `String.includes`). -/
def listInfixOf (pat : List Char) : List Char → Bool
  | [] => pat.isEmpty
  | c :: rest => listPrefixOf pat (c :: rest) || listInfixOf pat rest

/-- Model of JavaScript `s.includes(pat)`: substring containment. -/
def includes (s pat : String) : Bool :=
  listInfixOf pat.data s.data

/-- Model of JS `toLowerCase` (ASCII case map, structural). -/
def strLower (s : String) : String :=
  ⟨s.data.map Char.toLower⟩

/-- Model of JS `substring(0, n)` (structural). -/
def strTake (s : String) (n : Nat) : String :=
  ⟨s.data.take n⟩

/-- Split a character list at every character satisfying `p`, keeping
empty pieces (the semantics of JS `split` on a single-character-class
regex, and of Lean `String.split`). -/
def splitCharsOn (p : Char → Bool) : List Char → List (List Char)
  | [] => [[]]
  | c :: rest =>
    if p c then [] :: splitCharsOn p rest
    else
      match splitCharsOn p rest with
      | h :: t => (c :: h) :: t
      | [] => [[c]]

/-- Model of JS `s.split(re)` for a character-class regex (structural). -/
def strSplitOn (p : Char → Bool) (s : String) : List String :=
  (splitCharsOn p s.data).map fun l => ⟨l⟩

/-- Model of JS `String.prototype.trim` on a character list. -/
def jsTrim (l : List Char) : List Char :=
  ((l.dropWhile Char.isWhitespace).reverse.dropWhile Char.isWhitespace).reverse

/-- Model of JS `trim` on a string (structural). -/
def strTrim (s : String) : String :=
  ⟨jsTrim s.data⟩

/-- Model of JS `array.join(" ")` (structural). -/
def joinSpace : List String → String
  | [] => ""
  | [x] => x
  | x :: rest => x ++ " " ++ joinSpace rest

/-- JS truthiness of an optional string: `undefined` and `""` are falsy. -/
def jsTruthy (o : Option String) : Bool :=
  o.getD "" != ""

/-- Model of the JS `a || b` fallback idiom on an optional string. -/
def jsOrS (a : Option String) (b : String) : String :=
  match a with
  | some s => if s = "" then b else s
  | none => b

/-- Model of JS `Math.round` (half rounds up) on a rational. -/
def jsRound (x : ℚ) : ℤ :=
  ⌊x + 1/2⌋

/-- Model of JS `x % n` for `x ≥ 0, n > 0` (where `%` agrees with the
mathematical remainder `x - n * ⌊x / n⌋`). -/
def jsMod (x n : ℚ) : ℚ :=
  x - n * (⌊x / n⌋ : ℤ)

/-- Model of JS `text.split(/\s+/)`: split on maximal nonempty whitespace
runs, keeping an empty piece at a boundary whitespace run (so `""` yields
`[""]`, `" a"` yields `["", "a"]`, `"a "` yields `["a", ""]`). -/
def splitWsRuns : List Char → List (List Char)
  | [] => [[]]
  | c :: rest =>
    if c.isWhitespace then
      [] :: splitWsRuns (rest.dropWhile Char.isWhitespace)
    else
      match splitWsRuns rest with
      | h :: t => (c :: h) :: t
      | [] => [[c]]
  termination_by l => l.length
  decreasing_by
    · exact Nat.lt_succ_of_le ((List.dropWhile_sublist _).length_le)
    · exact Nat.lt_succ_self _

/-- Model of JS `text.split(" ")`: split on every single space character
(`""` yields `[""]`, consecutive spaces yield empty pieces). -/
def splitOnSpace (l : List Char) : List (List Char) :=
  splitCharsOn (fun c => c == ' ') l

/-! ## Data model (shared/schema.ts)

The slide record types live in `shared/schema.ts`, which is not part of
the source snapshot; their shapes below are reconstructed from the
construction sites in `server/routes.ts` and the consumption sites in
`server/scriptGenerator.ts`, together with spec §3. -/

/-- Pronunciation block of a vocabulary word (schema `pronunciation`). -/
structure Pronunciation where
  syllables : List String
  stressIndex : Int
  phoneticGuide : String
deriving DecidableEq

/-- Vocabulary word; only the fields consumed by the pipeline are kept. -/
structure VocabularyWord where
  term : String
  partOfSpeech : String
  definition : String
  example' : String
  pronunciation : Option Pronunciation
  imagePrompt : Option String
deriving DecidableEq

/-- A quiz question is either a plain string or a structured object with
optional `question`, `options` and `answer` fields (`routes.ts` handles
both shapes defensively). -/
inductive Question where
  | str (s : String)
  | obj (question : Option String) (options : Option (List String))
        (answer : Option String)
deriving DecidableEq

/-- Lesson section (schema `lessonSectionSchema`). -/
structure LessonSection where
  type : String
  title : String
  content : Option String
  questions : Option (List Question)
  targetVocabulary : Option (List String)
  procedure : Option String
  paragraphs : Option (List String)
  words : Option (List VocabularyWord)
deriving DecidableEq

/-- Lesson content block.  `sections` is `Option` because the route
handler checks `lesson.content?.sections` on raw, unvalidated input. -/
structure LessonContent where
  title : String
  level : String
  focus : Option String
  estimatedTime : Option Int
  sections : Option (List LessonSection)
deriving DecidableEq

/-- Root lesson document.  A missing `title` on raw input is modelled as
`""` (both are falsy under the `!lesson.title` check and only truthiness
is ever tested). -/
structure Lesson where
  id : Int
  title : String
  topic : String
  cefrLevel : String
  content : Option LessonContent
deriving DecidableEq

/-- Slide union (one constructor per archetype, payload fields as built
by `lessonToSlides` in routes.ts).  The random `id` and the `sequence`
counter are omitted (see the header comment). -/
inductive Slide where
  | title (title : String) (subtitle : Option String) (level : String)
          (topic : String)
  | hook (hookText : String) (hookType : String)
  | objectives (title : String) (objectives : List String)
  | vocabulary (term : String) (partOfSpeech : String) (definition : String)
               (example' : String) (pronunciation : Option String)
               (imagePrompt : Option String)
  | grammar (title : String) (explanation : String)
            (examples : Option (List String))
  | reading (title : String) (content : String)
  | example' (context : String) (sentence : String)
             (highlight : Option String)
  | activity (title : String) (instructions : String)
             (targetVocabulary : Option (List String))
  | quiz (questionNumber : Nat) (totalQuestions : Nat) (question : String)
         (options : Option (List String))
  | answer (questionNumber : Nat) (correctAnswer : String)
           (explanation : String)
  | summary (title : String) (keyPoints : List String)
  | outro (message : String) (callToAction : Option String)
deriving DecidableEq

/-- The `type` discriminant string of a slide. -/
def Slide.type : Slide → String
  | .title .. => "title"
  | .hook .. => "hook"
  | .objectives .. => "objectives"
  | .vocabulary .. => "vocabulary"
  | .grammar .. => "grammar"
  | .reading .. => "reading"
  | .example' .. => "example"
  | .activity .. => "activity"
  | .quiz .. => "quiz"
  | .answer .. => "answer"
  | .summary .. => "summary"
  | .outro .. => "outro"

/-- The `requiresImage` flag: every construction site in routes.ts sets
this constant per archetype, factored here as a function of the tag. -/
def Slide.requiresImage : Slide → Bool
  | .title .. => true
  | .hook .. => true
  | .objectives .. => false
  | .vocabulary .. => true
  | .grammar .. => true
  | .reading .. => true
  | .example' .. => true
  | .activity .. => false
  | .quiz .. => false
  | .answer .. => false
  | .summary .. => false
  | .outro .. => true

/-! ## Section classifier (routes.ts, classifySection) -/

/-- Translation of `classifySection` (routes.ts lines 251-269): keyword
substring tests in fixed order over lower-cased `type ++ " " ++ title`. -/
def classifySection (s : LessonSection) : String :=
  let type := strLower s.type
  let title := strLower s.title
  let combined := type ++ " " ++ title
  if includes combined "objective" || includes combined "learning goal" then "objectives"
  else if includes combined "vocabulary" || includes combined "key words" then "vocabulary"
  else if includes combined "grammar" || includes combined "language focus" || includes combined "structure" then "grammar"
  else if includes combined "reading" || includes combined "passage" || includes combined "text" then "reading"
  else if includes combined "example" || includes combined "dialogue" || includes combined "conversation" || includes combined "sample" then "example"
  else if includes combined "activity" || includes combined "practice" || includes combined "exercise" || includes combined "task" then "activity"
  else if includes combined "quiz" || includes combined "assessment" || includes combined "check" || includes combined "test" then "quiz"
  else if includes combined "summary" || includes combined "review" || includes combined "wrap" then "summary"
  else if includes combined "introduction" || includes combined "warm" then "intro"
  else if jsTruthy s.content || s.paragraphs.isSome then "content"
  else "other"

/-- The spec's data-driven form of the classifier: an ordered list of
(category, keyword set) rules, evaluated top to bottom. -/
def keywordRules : List (String × List String) :=
  [("objectives", ["objective", "learning goal"]),
   ("vocabulary", ["vocabulary", "key words"]),
   ("grammar", ["grammar", "language focus", "structure"]),
   ("reading", ["reading", "passage", "text"]),
   ("example", ["example", "dialogue", "conversation", "sample"]),
   ("activity", ["activity", "practice", "exercise", "task"]),
   ("quiz", ["quiz", "assessment", "check", "test"]),
   ("summary", ["summary", "review", "wrap"]),
   ("intro", ["introduction", "warm"])]

/-- Spec-shaped classifier (spec §4.1): first rule of `keywordRules`
whose keyword set has a substring match wins; otherwise `content` when
the section has non-empty body text or a paragraph list, else `other`. -/
def classifySectionSpec (s : LessonSection) : String :=
  let combined := strLower s.type ++ " " ++ strLower s.title
  match keywordRules.find? (fun r => r.2.any (fun k => includes combined k)) with
  | some r => r.1
  | none =>
    if jsTruthy s.content || s.paragraphs.isSome then "content"
    else "other"

/-! ## Slide assembler (routes.ts, lessonToSlides) -/

/-- Abridged model of `JSON.stringify` on a structured question object
(double quote and backslash escaped; fields emitted in schema order,
absent fields omitted).  Only the fact that the question text falls back
to this rendering matters to the claims, not the exact characters. -/
def jsonQuote (s : String) : String :=
  "\"" ++ ⟨s.data.flatMap fun ch =>
    if ch = '"' || ch = '\\' then ['\\', ch] else [ch]⟩ ++ "\""

/-- JSON rendering of a list of strings. -/
def jsonArray (l : List String) : String :=
  "[" ++ joinSpace (l.map jsonQuote) ++ "]"

/-- Model of `JSON.stringify(questionData)` for the object form. -/
def Question.stringify : Question → String
  | .str s => jsonQuote s
  | .obj question options answer =>
    let fields :=
      (match question with
       | some q => ["\"question\":" ++ jsonQuote q]
       | none => []) ++
      (match options with
       | some o => ["\"options\":" ++ jsonArray o]
       | none => []) ++
      (match answer with
       | some a => ["\"answer\":" ++ jsonQuote a]
       | none => [])
    "\x7b" ++ joinSpace fields ++ "\x7d"

/-- The question text extracted by the quiz case of `lessonToSlides`:
`qObj.question || JSON.stringify(questionData)` for the object form,
`String(questionData)` for the string form. -/
def questionText : Question → String
  | .str s => s
  | .obj question options answer =>
    match question with
    | some q => if q = "" then Question.stringify (.obj question options answer) else q
    | none => Question.stringify (.obj question options answer)

/-- The options extracted by the quiz case (`qObj.options`). -/
def questionOptions : Question → Option (List String)
  | .str _ => none
  | .obj _ options _ => options

/-- The answer-slide text: `correctAnswer || "See the correct answer!"`
where `correctAnswer` is `qObj.answer` (undefined for string questions). -/
def answerText (q : Question) : String :=
  match q with
  | .str _ => "See the correct answer!"
  | .obj _ _ answer => jsOrS answer "See the correct answer!"

/-- Vocabulary slide built for one word (routes.ts lines 338-350). -/
def mkVocabSlide (w : VocabularyWord) : Slide :=
  .vocabulary w.term w.partOfSpeech w.definition w.example'
    (w.pronunciation.map Pronunciation.phoneticGuide) w.imagePrompt

/-- The `section.paragraphs?.join(" ") || section.content || ""` idiom
used by the reading / content / example / fallback cases. -/
def sectionContentText (s : LessonSection) : String :=
  jsOrS (s.paragraphs.map joinSpace) (jsOrS s.content "")

/-- Slides emitted for one section by the phase-3 switch of
`lessonToSlides` (routes.ts lines 328-473). -/
def sectionSlides (s : LessonSection) : List Slide :=
  match classifySection s with
  | "vocabulary" =>
    match s.words with
    | some ws => ws.map mkVocabSlide
    | none => []
  | "grammar" =>
    if jsTruthy s.content then
      [Slide.grammar s.title (strTake (s.content.getD "") 300)
        (s.paragraphs.map fun ps => ps.take 2)]
    else []
  | "reading" =>
    if sectionContentText s = "" then []
    else [Slide.reading s.title (strTake (sectionContentText s) 400)]
  | "content" =>
    if sectionContentText s = "" then []
    else [Slide.reading s.title (strTake (sectionContentText s) 400)]
  | "example" =>
    if sectionContentText s = "" then []
    else [Slide.example' s.title (strTake (sectionContentText s) 300)
      (s.targetVocabulary.bind fun l => l.get? 0)]
  | "activity" => []
  | "quiz" =>
    match s.questions with
    | some qs =>
      (qs.take 5).enum.flatMap fun p =>
        [Slide.quiz (p.1 + 1) (min qs.length 5) (questionText p.2)
          (questionOptions p.2),
         Slide.answer (p.1 + 1) (answerText p.2)
           "Great job thinking about this question!"]
    | none => []
  | "intro" => []
  | _ =>
    if jsTruthy s.content || s.paragraphs.isSome then
      if 20 < (sectionContentText s).length then
        [Slide.reading s.title (strTake (sectionContentText s) 400)]
      else []
    else []

/-- The objective lines extracted from an objectives section body:
split on newline / bullet / hyphen, trim, keep pieces longer than 10. -/
def objectivePieces (c : String) : List String :=
  ((strSplitOn (fun ch => ch == '\n' || ch == '•' || ch == '-') c).map
    strTrim).filter fun o => 10 < o.length

/-- Phase 2 of `lessonToSlides` (routes.ts lines 301-325): consume the
first objectives-classified section and, when its body text yields at
least one qualifying line, emit one objectives slide. -/
def objectivesPhase (secs : List LessonSection) : List Slide :=
  match secs.findIdx? (fun s => classifySection s == "objectives") with
  | some i =>
    match secs.get? i with
    | some s =>
      if jsTruthy s.content then
        if 0 < (objectivePieces (s.content.getD "")).length then
          [Slide.objectives "What You\x27ll Learn"
            ((objectivePieces (s.content.getD "")).take 4)]
        else []
      else []
    | none => []
  | none => []

/-- Phase 3 loop of `lessonToSlides`: iterate sections by index, skipping
the index recorded in `processedSections` (only ever the objectives
index). -/
def phase4 (skip : Option Nat) : Nat → List LessonSection → List Slide
  | _, [] => []
  | i, s :: rest =>
    (if skip == some i then [] else sectionSlides s) ++ phase4 skip (i + 1) rest

/-- The term carried by a vocabulary slide (used by the summary phase's
filter over already-emitted slides). -/
def vocabTerm : Slide → Option String
  | .vocabulary term _ _ _ _ _ => some term
  | _ => none

/-- Phases 1-3 of `lessonToSlides`: the title and hook slides, the
objectives phase, and the per-section loop (skipping the consumed
objectives index). -/
def assembledBase (title topic cefrLevel : String) (focus : Option String)
    (secs : List LessonSection) : List Slide :=
  [Slide.title title focus cefrLevel topic,
   Slide.hook ("Ready to master " ++ topic ++ "? Let\x27s go! 🚀") "teaser"] ++
  objectivesPhase secs ++
  phase4 (secs.findIdx? fun s => classifySection s == "objectives") 0 secs

/-- Phase 4 of `lessonToSlides`: collect the terms of the vocabulary
slides emitted so far and, when any exist, emit one summary slide with
at most the first 6. -/
def summaryPhase (slides : List Slide) : List Slide :=
  if 0 < (slides.filterMap vocabTerm).length then
    [Slide.summary "Key Vocabulary" ((slides.filterMap vocabTerm).take 6)]
  else []

/-- Translation of `lessonToSlides` (routes.ts lines 272-504).  The
lesson is known valid at this point, so the function takes the unpacked
fields. -/
def lessonToSlides (title topic cefrLevel : String) (focus : Option String)
    (secs : List LessonSection) : List Slide :=
  assembledBase title topic cefrLevel focus secs ++
  summaryPhase (assembledBase title topic cefrLevel focus secs) ++
  [Slide.outro ("Great job learning about " ++ topic ++ "!")
    (some "Follow for more lessons!")]

/-- The `/api/lesson-to-slides` handler's validation plus assembly
(routes.ts lines 512-538): reject a lesson whose title is falsy or whose
`content?.sections` is absent, otherwise run `lessonToSlides`. -/
def assembleSlides (lesson : Lesson) : Except String (List Slide) :=
  if lesson.title = "" then .error "Invalid lesson format"
  else
    match lesson.content with
    | none => .error "Invalid lesson format"
    | some content =>
      match content.sections with
      | none => .error "Invalid lesson format"
      | some secs =>
        .ok (lessonToSlides lesson.title lesson.topic lesson.cefrLevel
          content.focus secs)

/-! ## Script generator (scriptGenerator.ts) -/

/-- Script line (scriptGenerator.ts `ScriptLine`; the random `slideId`
is omitted like the slide ids). -/
structure ScriptLine where
  slideNumber : Nat
  slideType : String
  text : String
  pronunciationHints : List String
  suggestedDurationSeconds : ℚ
  startTimeSeconds : ℚ
deriving DecidableEq

/-- Complete voiceover script (scriptGenerator.ts `VoiceoverScript`). -/
structure VoiceoverScript where
  lessonTitle : String
  totalDurationSeconds : ℚ
  lines : List ScriptLine
deriving DecidableEq

/-- Tone options for script generation. -/
inductive ScriptTone where
  | professional
  | casual
  | fun'
deriving DecidableEq

/-- A slide paired with optional generated image data. -/
structure GeneratedSlide where
  slide : Slide
  imageData : Option String
  imagePrompt : Option String
deriving DecidableEq

/-- A reel: the ordered generated-slide sequence plus lesson metadata
(only the fields the script generator reads are kept). -/
structure LessonReel where
  title : String
  slides : List GeneratedSlide
deriving DecidableEq

/-- Model of JS `array.join(sep)` (structural). -/
def joinSep (sep : String) : List String → String
  | [] => ""
  | [x] => x
  | x :: rest => x ++ sep ++ joinSep sep rest

/-- Model of JS `array.join(". ")`. -/
def joinDot (l : List String) : String :=
  joinSep ". " l

/-- Model of JS `array.join(", ")`. -/
def joinComma (l : List String) : String :=
  joinSep ", " l

/-- The archetype pacing factors (scriptGenerator.ts `typeMultipliers`). -/
def typeMultipliers : List (String × ℚ) :=
  [("title", 1.5), ("vocabulary", 1.3), ("quiz", 2.0),
   ("answer", 1.5), ("hook", 1.2), ("outro", 1.3)]

/-- Translation of `estimateDuration` (scriptGenerator.ts lines 32-49):
`split(/\s+/).length / 2.5`, times the archetype factor (1.0 when the
type is not in the table; no table entry is falsy, so `|| 1.0` is
`getD 1.0`), rounded to one decimal, floored at 2 seconds. -/
def estimateDuration (text : String) (slideType : String) : ℚ :=
  let wordCount : ℚ := ((splitWsRuns text.data).length : ℚ)
  let baseTime := wordCount / 2.5
  let multiplier := (typeMultipliers.lookup slideType).getD 1.0
  max 2 ((jsRound (baseTime * multiplier * 10) : ℚ) / 10)

/-- Tone-dependent phrases (scriptGenerator.ts `toneAdjust`). -/
def toneGreeting : ScriptTone → String
  | .professional => "Welcome to"
  | .casual => "Hey! Let\x27s dive into"
  | .fun' => "Get ready for"

/-- Tone-dependent closing phrase. -/
def toneClosing : ScriptTone → String
  | .professional => "Thank you for learning with us."
  | .casual => "Thanks for watching!"
  | .fun' => "You crushed it! See you next time!"

/-- Translation of `generateSlideText` (scriptGenerator.ts lines 52-99).
In this embedding the quiz slide's `question` is already a string, so
the defensive object branch of the source's quiz case cannot trigger. -/
def generateSlideText (slide : Slide) (tone : ScriptTone) : String :=
  match slide with
  | .title title _ level topic =>
    toneGreeting tone ++ " today\x27s lesson: " ++ title ++
      ". We\x27ll be exploring " ++ topic ++ " at the " ++ level ++ " level."
  | .hook hookText _ =>
    jsOrS (some hookText) "Here\x27s something interesting to think about..."
  | .objectives _ objectives =>
    "By the end of this lesson, you will be able to: " ++
      joinDot objectives
  | .vocabulary term partOfSpeech definition ex _ _ =>
    "Our next word is \"" ++ term ++ "\". It\x27s a " ++ partOfSpeech ++
      ". " ++ definition ++ ". For example: \"" ++ ex ++ "\""
  | .grammar title explanation examples =>
    "Let\x27s look at " ++ title ++ ". " ++ explanation ++
      (if jsTruthy (examples.bind fun l => l.get? 0) then
        " Here\x27s an example: \"" ++ ((examples.bind fun l => l.get? 0).getD "") ++ "\""
      else "")
  | .reading _ content => content
  | .example' context sentence highlight =>
    context ++ ": \"" ++ sentence ++ "\"" ++
      (if jsTruthy highlight then
        " Notice how we use \"" ++ highlight.getD "" ++ "\" here."
      else "")
  | .activity _ _ _ => ""
  | .quiz questionNumber _ question options =>
    "Question " ++ toString questionNumber ++ ": " ++ question ++
      (match options with
       | some o => " Your options are: " ++ joinComma o
       | none => "") ++ " Take a moment to think..."
  | .answer _ correctAnswer explanation =>
    "The answer is: " ++ correctAnswer ++ ". " ++ explanation
  | .summary _ keyPoints =>
    "Let\x27s review what we learned. Key vocabulary: " ++
      joinComma keyPoints ++ "."
  | .outro message callToAction =>
    message ++ " " ++ jsOrS callToAction (toneClosing tone)

/-- Translation of `extractPronunciationHints` (scriptGenerator.ts lines
102-107): a hint only for vocabulary slides with a truthy pronunciation. -/
def extractPronunciationHints (slide : Slide) : List String :=
  match slide with
  | .vocabulary term _ _ _ pronunciation _ =>
    if jsTruthy pronunciation then [term ++ ": " ++ pronunciation.getD ""]
    else []
  | _ => []

/-- Loop body of `generateVoiceoverScript`: iterate the slides with their
index and the running start time, skipping slides whose generated text is
empty; returns the lines plus the final running total. -/
def genLinesAux (tone : ScriptTone) : Nat → ℚ → List GeneratedSlide →
    List ScriptLine × ℚ
  | _, currentTime, [] => ([], currentTime)
  | i, currentTime, genSlide :: rest =>
    let slide := genSlide.slide
    let text := generateSlideText slide tone
    if text = "" then genLinesAux tone (i + 1) currentTime rest
    else
      let duration := estimateDuration text slide.type
      let next := genLinesAux tone (i + 1) (currentTime + duration) rest
      (⟨i + 1, slide.type, text, extractPronunciationHints slide,
        duration, currentTime⟩ :: next.1, next.2)

/-- Translation of `generateVoiceoverScript` (scriptGenerator.ts lines
110-144). -/
def generateVoiceoverScript (reel : LessonReel) (tone : ScriptTone) :
    VoiceoverScript :=
  let result := genLinesAux tone 0 0 reel.slides
  ⟨reel.title, result.2, result.1⟩

/-! ## SRT rendering (scriptGenerator.ts, formatSRTTime / generateSRT) -/

/-- The `HH:MM:SS,mmm` components computed by `formatSRTTime`
(scriptGenerator.ts lines 147-153): hours, minutes and whole seconds
floored, milliseconds rounded. -/
structure SRTTime where
  h : ℤ
  m : ℤ
  s : ℤ
  ms : ℤ
deriving DecidableEq

/-- Translation of `formatSRTTime` on nonnegative rational seconds. -/
def srtStamp (seconds : ℚ) : SRTTime :=
  ⟨⌊seconds / 3600⌋, ⌊jsMod seconds 3600 / 60⌋, ⌊jsMod seconds 60⌋,
   jsRound (jsMod seconds 1 * 1000)⟩

/-- The time value denoted by a formatted `HH:MM:SS,mmm` timestamp. -/
def SRTTime.denote (t : SRTTime) : ℚ :=
  3600 * t.h + 60 * t.m + t.s + (t.ms : ℚ) / 1000

/-- Greedy word-wrap loop of `generateSRT` (scriptGenerator.ts lines
166-179): accumulate words until appending the next one would exceed 42
characters, pushing the trimmed current line at each overflow and at the
end (when non-empty). -/
def wrapAux : List (List Char) → List Char → List (List Char)
  | [], currentLine =>
    if jsTrim currentLine = [] then [] else [jsTrim currentLine]
  | word :: rest, currentLine =>
    if 42 < (currentLine ++ ' ' :: word).length then
      jsTrim currentLine :: wrapAux rest word
    else
      wrapAux rest (currentLine ++ ' ' :: word)

/-- The subtitle lines built from one script line's text: split the text
on single spaces, wrap greedily at 42 characters. -/
def wrapText (text : String) : List (List Char) :=
  wrapAux (splitOnSpace text.data) []

/-- One SRT cue as assembled by `generateSRT` (scriptGenerator.ts lines
159-184): start / end timestamps and at most the first 2 wrapped text
lines.  The final string render (cue numbering and newline joining) is
not modelled; no claim concerns it. -/
structure SRTCue where
  start : SRTTime
  stop : SRTTime
  textLines : List (List Char)
deriving DecidableEq

/-- The cue generated for one script line. -/
def srtCue (line : ScriptLine) : SRTCue :=
  ⟨srtStamp line.startTimeSeconds,
   srtStamp (line.startTimeSeconds + line.suggestedDurationSeconds),
   (wrapText line.text).take 2⟩

/-- Translation of `generateSRT`, at the granularity of cues. -/
def generateSRTCues (script : VoiceoverScript) : List SRTCue :=
  script.lines.map srtCue

/-! ## Theorems -/

/-- Helper for C1: the nested-if classifier of routes.ts equals the
data-driven ordered-rule classifier of the spec, on every section. -/
theorem classifySection_eq_spec (s : LessonSection) :
    classifySection s = classifySectionSpec s := by
  unfold classifySection classifySectionSpec
  set c := strLower s.type ++ " " ++ strLower s.title with hc
  simp only [keywordRules, List.find?_cons, List.any_cons, List.any_nil, Bool.or_false,
    Bool.or_assoc]
  cases h1 : (includes c "objective" || includes c "learning goal") <;> simp only [h1, cond_false, cond_true, if_false, if_true]
  cases h2 : (includes c "vocabulary" || includes c "key words") <;> simp only [h2, cond_false, cond_true, if_false, if_true]
  cases h3 : (includes c "grammar" || (includes c "language focus" || includes c "structure")) <;> simp only [h3, cond_false, cond_true, if_false, if_true]
  cases h4 : (includes c "reading" || (includes c "passage" || includes c "text")) <;> simp only [h4, cond_false, cond_true, if_false, if_true]
  cases h5 : (includes c "example" || (includes c "dialogue" || (includes c "conversation" || includes c "sample"))) <;> simp only [h5, cond_false, cond_true, if_false, if_true]
  cases h6 : (includes c "activity" || (includes c "practice" || (includes c "exercise" || includes c "task"))) <;> simp only [h6, cond_false, cond_true, if_false, if_true]
  cases h7 : (includes c "quiz" || (includes c "assessment" || (includes c "check" || includes c "test"))) <;> simp only [h7, cond_false, cond_true, if_false, if_true]
  cases h8 : (includes c "summary" || (includes c "review" || includes c "wrap")) <;> simp only [h8, cond_false, cond_true, if_false, if_true]
  cases h9 : (includes c "introduction" || includes c "warm") <;> simp only [h9, cond_false, cond_true, if_false, if_true]
  all_goals rfl

/-- C1: the classifier concatenates the lower-cased type and title into
one search string and returns the first category of the fixed ordered
rule list (objectives, vocabulary, grammar, reading, example, activity,
quiz, summary, intro) whose keyword set has a substring match; with no
match it returns `content` exactly when the section has non-empty body
text or a paragraph list, and `other` otherwise.  In particular a
section titled "Reading Assessment" classifies as `reading`, not
`quiz`. -/
theorem claim_C1_classifier_first_match :
    (∀ s : LessonSection, classifySection s = classifySectionSpec s) ∧
    classifySection
      ⟨"", "Reading Assessment", none, none, none, none, none, none⟩ =
      "reading" :=
  ⟨classifySection_eq_spec, by decide⟩

/-- C2: slide assembly fails with the invalid-lesson error exactly when
the lesson lacks a (truthy) title or lacks a `content.sections` list;
any lesson having both assembles to a slide list without error. -/
theorem claim_C2_assembly_error_iff (lesson : Lesson) :
    ((∃ e, assembleSlides lesson = Except.error e) ↔
      (lesson.title = "" ∨ lesson.content.bind LessonContent.sections = none)) ∧
    (¬(lesson.title = "" ∨ lesson.content.bind LessonContent.sections = none) →
      ∃ slides, assembleSlides lesson = Except.ok slides) := by
  rcases lesson with ⟨id, title, topic, cefr, content⟩
  by_cases ht : title = ""
  · simp [assembleSlides, ht]
  · rcases content with _ | ⟨ctitle, clevel, cfocus, ctime, sections⟩
    · simp [assembleSlides, ht]
    · rcases sections with _ | secs <;>
        simp [assembleSlides, ht, Option.bind]

/-- Witness for C2 at a concrete valid lesson. -/
theorem claim_C2_assembly_error_iff_witness :
    ∃ slides,
      assembleSlides
        ⟨1, "Food Vocabulary", "Food", "A2",
         some ⟨"Food Vocabulary", "A2", none, none, some []⟩⟩ =
        Except.ok slides :=
  (claim_C2_assembly_error_iff _).2 (by simp)

/-- The word count used by the duration model: the length of
`text.split(/\s+/)` (boundary whitespace contributes empty pieces). -/
def wordCount (text : String) : Nat :=
  (splitWsRuns text.data).length

/-- The spec's archetype pacing factor table (§4.3): title 1.5,
vocabulary 1.3, quiz 2.0, answer 1.5, hook 1.2, outro 1.3, all other
types 1.0. -/
def specPacingFactor (slideType : String) : ℚ :=
  if slideType = "title" then 1.5
  else if slideType = "vocabulary" then 1.3
  else if slideType = "quiz" then 2.0
  else if slideType = "answer" then 1.5
  else if slideType = "hook" then 1.2
  else if slideType = "outro" then 1.3
  else 1.0

/-- C8: for every text and slide type the estimated line duration is the
whitespace-split word count divided by 2.5, times the archetype factor
of `specPacingFactor`, rounded to one decimal place, floored at a
2-second minimum. -/
theorem claim_C8_duration_model (text slideType : String) :
    estimateDuration text slideType =
      max 2 ((jsRound ((wordCount text : ℚ) / 2.5 *
        specPacingFactor slideType * 10) : ℚ) / 10) := by
  unfold estimateDuration specPacingFactor wordCount typeMultipliers
  by_cases h1 : slideType = "title"
  · subst h1; simp [List.lookup]
  by_cases h2 : slideType = "vocabulary"
  · subst h2; simp [List.lookup]
  by_cases h3 : slideType = "quiz"
  · subst h3; simp [List.lookup]
  by_cases h4 : slideType = "answer"
  · subst h4; simp [List.lookup]
  by_cases h5 : slideType = "hook"
  · subst h5; simp [List.lookup]
  by_cases h6 : slideType = "outro"
  · subst h6; simp [List.lookup]
  · have b1 : (slideType == "title") = false := by simp [h1]
    have b2 : (slideType == "vocabulary") = false := by simp [h2]
    have b3 : (slideType == "quiz") = false := by simp [h3]
    have b4 : (slideType == "answer") = false := by simp [h4]
    have b5 : (slideType == "hook") = false := by simp [h5]
    have b6 : (slideType == "outro") = false := by simp [h6]
    simp [List.lookup, b1, b2, b3, b4, b5, b6, h1, h2, h3, h4, h5, h6]

/-- Helper for C7: the lines produced by the script loop are exactly the
non-empty-text slides, enumerated from the start index, in order, with
the per-line payload derived from the slide. -/
theorem genLinesAux_lines_spec (tone : ScriptTone) (i : Nat) (t : ℚ)
    (gss : List GeneratedSlide) :
    (genLinesAux tone i t gss).1.map
        (fun l => (l.slideNumber, l.slideType, l.text, l.pronunciationHints,
          l.suggestedDurationSeconds)) =
      (List.enumFrom i gss).filterMap fun p =>
        if generateSlideText p.2.slide tone = "" then none
        else some (p.1 + 1, p.2.slide.type, generateSlideText p.2.slide tone,
          extractPronunciationHints p.2.slide,
          estimateDuration (generateSlideText p.2.slide tone) p.2.slide.type) := by
  induction gss generalizing i t with
  | nil => simp [genLinesAux]
  | cons g rest ih =>
    by_cases h : generateSlideText g.slide tone = "" <;>
      simp [genLinesAux, h, ih, List.enumFrom]

/-- Helper for C7: each produced line starts at the initial running time
plus the durations of the lines before it. -/
theorem genLinesAux_start_times (tone : ScriptTone) (i : Nat) (t : ℚ)
    (gss : List GeneratedSlide) :
    ∀ j l, (genLinesAux tone i t gss).1[j]? = some l →
      l.startTimeSeconds =
        t + (((genLinesAux tone i t gss).1.take j).map
          ScriptLine.suggestedDurationSeconds).sum := by
  induction gss generalizing i t with
  | nil => intro j l hl; simp [genLinesAux] at hl
  | cons g rest ih =>
    intro j l hl
    by_cases h : generateSlideText g.slide tone = ""
    · rw [show genLinesAux tone i t (g :: rest) =
          genLinesAux tone (i + 1) t rest by simp [genLinesAux, h]] at hl ⊢
      exact ih _ _ _ _ hl
    · rw [show genLinesAux tone i t (g :: rest) =
          (⟨i + 1, g.slide.type, generateSlideText g.slide tone,
            extractPronunciationHints g.slide,
            estimateDuration (generateSlideText g.slide tone) g.slide.type,
            t⟩ ::
              (genLinesAux tone (i + 1)
                (t + estimateDuration (generateSlideText g.slide tone)
                  g.slide.type) rest).1,
            (genLinesAux tone (i + 1)
              (t + estimateDuration (generateSlideText g.slide tone)
                g.slide.type) rest).2) by simp [genLinesAux, h]] at hl ⊢
      match j with
      | 0 =>
        simp only [List.getElem?_cons_zero, Option.some.injEq] at hl
        rw [← hl]
        simp
      | j' + 1 =>
        simp only [List.getElem?_cons_succ] at hl
        rw [ih _ _ _ _ hl]
        simp [List.take_cons]
        ring

/-- Helper for C7: the final running time returned by the loop is the
initial time plus the sum of all produced durations. -/
theorem genLinesAux_total (tone : ScriptTone) (i : Nat) (t : ℚ)
    (gss : List GeneratedSlide) :
    (genLinesAux tone i t gss).2 =
      t + ((genLinesAux tone i t gss).1.map
        ScriptLine.suggestedDurationSeconds).sum := by
  induction gss generalizing i t with
  | nil => simp [genLinesAux]
  | cons g rest ih =>
    by_cases h : generateSlideText g.slide tone = ""
    · simp [genLinesAux, h, ih]
    · simp [genLinesAux, h, ih]; ring

/-- C7: voiceover script lines appear in slide order with exactly the
non-empty-text slides contributing (empty generated text contributes no
line and no duration); every line starts at the sum of the preceding
durations, and the total duration is the sum of all line durations. -/
theorem claim_C7_script_timing (reel : LessonReel) (tone : ScriptTone) :
    ((generateVoiceoverScript reel tone).lines.map
        (fun l => (l.slideNumber, l.slideType, l.text, l.pronunciationHints,
          l.suggestedDurationSeconds)) =
      (reel.slides.enum.filterMap fun p =>
        if generateSlideText p.2.slide tone = "" then none
        else some (p.1 + 1, p.2.slide.type, generateSlideText p.2.slide tone,
          extractPronunciationHints p.2.slide,
          estimateDuration (generateSlideText p.2.slide tone)
            p.2.slide.type))) ∧
    (∀ j l, (generateVoiceoverScript reel tone).lines[j]? = some l →
      l.startTimeSeconds =
        (((generateVoiceoverScript reel tone).lines.take j).map
          ScriptLine.suggestedDurationSeconds).sum) ∧
    (generateVoiceoverScript reel tone).totalDurationSeconds =
      ((generateVoiceoverScript reel tone).lines.map
        ScriptLine.suggestedDurationSeconds).sum := by
  refine ⟨?_, ?_, ?_⟩
  · simpa [generateVoiceoverScript, List.enum] using
      genLinesAux_lines_spec tone 0 0 reel.slides
  · intro j l hl
    simpa using genLinesAux_start_times tone 0 0 reel.slides j l hl
  · simpa [generateVoiceoverScript] using
      genLinesAux_total tone 0 0 reel.slides

/-- Concrete one-slide reel used by the C7 witness. -/
def reelW : LessonReel := ⟨"L", [⟨Slide.reading "R" "hi", none, none⟩]⟩

/-- Witness for C7: on a concrete reel the first line starts at the sum
of the durations before it (zero). -/
theorem claim_C7_script_timing_witness :
    ∃ l, (generateVoiceoverScript reelW .professional).lines[0]? = some l ∧
      l.startTimeSeconds =
        (((generateVoiceoverScript reelW .professional).lines.take 0).map
          ScriptLine.suggestedDurationSeconds).sum := by
  have hl : (generateVoiceoverScript reelW .professional).lines[0]? =
      some ⟨1, "reading", "hi", [], 2, 0⟩ := by
    simp [reelW, generateVoiceoverScript, genLinesAux, generateSlideText,
      extractPronunciationHints, estimateDuration, splitWsRuns, typeMultipliers,
      jsRound, Slide.type, List.lookup]
    norm_num
  exact ⟨_, hl, (claim_C7_script_timing reelW .professional).2.1 0 _ hl⟩

/-- Helper for C9: `Math.round` is within 1/2 of its argument. -/
theorem abs_jsRound_sub_le (y : ℚ) : |(jsRound y : ℚ) - y| ≤ 1/2 := by
  unfold jsRound
  rw [abs_le]
  constructor
  · have h2 : (y + 1/2 - 1 : ℚ) < (⌊y + 1/2⌋ : ℚ) := by
      exact_mod_cast Int.sub_one_lt_floor (y + 1/2)
    linarith
  · have := Int.floor_le (y + 1/2)
    linarith

/-- Helper for C9: the `HH:MM:SS,mmm` decomposition denotes the floor of
the time plus its rounded millisecond fraction. -/
theorem srtStamp_denote (x : ℚ) :
    (srtStamp x).denote =
      (⌊x⌋ : ℚ) + (jsRound ((x - (⌊x⌋ : ℚ)) * 1000) : ℚ) / 1000 := by
  unfold srtStamp SRTTime.denote jsMod
  have h3600 : (x - 3600 * ((⌊x / 3600⌋ : ℤ) : ℚ)) / 60 =
      x / 60 - ((60 * ⌊x / 3600⌋ : ℤ) : ℚ) := by
    push_cast; ring
  have hm : ⌊(x - 3600 * ((⌊x / 3600⌋ : ℤ) : ℚ)) / 60⌋ =
      ⌊x / 60⌋ - 60 * ⌊x / 3600⌋ := by
    rw [h3600, Int.floor_sub_int]
  have hs : ⌊x - 60 * ((⌊x / 60⌋ : ℤ) : ℚ)⌋ = ⌊x⌋ - 60 * ⌊x / 60⌋ := by
    have hcast : x - 60 * ((⌊x / 60⌋ : ℤ) : ℚ) = x - ((60 * ⌊x / 60⌋ : ℤ) : ℚ) := by
      push_cast; ring
    rw [hcast, Int.floor_sub_int]
  have hms : x - 1 * ((⌊x / 1⌋ : ℤ) : ℚ) = x - (⌊x⌋ : ℚ) := by
    rw [div_one]; ring
  simp only [hm, hs, hms]
  push_cast
  ring

/-- Helper for C9: a formatted timestamp denotes a time within 1/2000 s
of the exact time. -/
theorem srtStamp_denote_close (x : ℚ) : |(srtStamp x).denote - x| ≤ 1/2000 := by
  rw [srtStamp_denote]
  have h := abs_jsRound_sub_le ((x - (⌊x⌋ : ℚ)) * 1000)
  have heq : (⌊x⌋ : ℚ) + (jsRound ((x - (⌊x⌋ : ℚ)) * 1000) : ℚ) / 1000 - x =
      ((jsRound ((x - (⌊x⌋ : ℚ)) * 1000) : ℚ) - (x - (⌊x⌋ : ℚ)) * 1000) / 1000 := by
    ring
  rw [heq, abs_div]
  simp only [abs_of_pos (show (0:ℚ) < 1000 by norm_num)]
  calc |(jsRound ((x - (⌊x⌋ : ℚ)) * 1000) : ℚ) - (x - (⌊x⌋ : ℚ)) * 1000| / 1000
      ≤ (1/2) / 1000 := by
        apply div_le_div_of_nonneg_right h ?_ |>.trans_eq rfl
        norm_num
    _ = 1/2000 := by norm_num

/-- Helper for C9: no piece produced by a character split contains a
split character. -/
theorem splitCharsOn_mem_not (p : Char → Bool) (l : List Char) :
    ∀ w ∈ splitCharsOn p l, ∀ c ∈ w, ¬p c := by
  induction l with
  | nil => intro w hw c hc; simp [splitCharsOn] at hw; subst hw; simp at hc
  | cons a rest ih =>
    intro w hw c hc
    by_cases hp : p a
    · simp [splitCharsOn, hp] at hw
      rcases hw with hw | hw
      · subst hw; simp at hc
      · exact ih w hw c hc
    · simp only [splitCharsOn, hp, if_false] at hw
      rcases hsp : splitCharsOn p rest with _ | ⟨h0, t0⟩
      · rw [hsp] at hw; simp at hw
        subst hw; simp at hc
        subst hc; simpa using hp
      · rw [hsp] at hw
        simp at hw
        rcases hw with hw | hw
        · subst hw
          rcases List.mem_cons.mp hc with hc | hc
          · subst hc; simpa using hp
          · exact ih h0 (by rw [hsp]; simp) c hc
        · exact ih w (by rw [hsp]; simp [hw]) c hc

/-- Helper for C9: trimming never lengthens a line. -/
theorem jsTrim_length_le (l : List Char) : (jsTrim l).length ≤ l.length := by
  unfold jsTrim
  calc ((l.dropWhile Char.isWhitespace).reverse.dropWhile
          Char.isWhitespace).reverse.length
      = ((l.dropWhile Char.isWhitespace).reverse.dropWhile
          Char.isWhitespace).length := by simp
    _ ≤ (l.dropWhile Char.isWhitespace).reverse.length :=
        (List.dropWhile_sublist _).length_le
    _ = (l.dropWhile Char.isWhitespace).length := by simp
    _ ≤ l.length := (List.dropWhile_sublist _).length_le

/-- Helper for C9: trimming introduces no new characters. -/
theorem jsTrim_not_mem (l : List Char) (c : Char) (h : c ∉ l) : c ∉ jsTrim l := by
  unfold jsTrim
  intro hc
  apply h
  have h1 : c ∈ (l.dropWhile Char.isWhitespace).reverse :=
    List.Sublist.mem (by simpa using hc) (List.dropWhile_sublist _)
  have h2 : c ∈ l.dropWhile Char.isWhitespace := by simpa using h1
  exact List.Sublist.mem h2 (List.dropWhile_sublist _)

/-- Helper for C9: every line emitted by the greedy wrap loop is at most
42 characters long or is a single whitespace-free word. -/
theorem wrapAux_good (ws : List (List Char)) (cur : List Char)
    (hws : ∀ w ∈ ws, ' ' ∉ w) (hcur : cur.length ≤ 42 ∨ ' ' ∉ cur) :
    ∀ t ∈ wrapAux ws cur, t.length ≤ 42 ∨ ' ' ∉ t := by
  induction ws generalizing cur with
  | nil =>
    intro t ht
    unfold wrapAux at ht
    by_cases h : jsTrim cur = []
    · simp [h] at ht
    · simp [h] at ht
      subst ht
      rcases hcur with hc | hc
      · exact Or.inl ((jsTrim_length_le cur).trans hc)
      · exact Or.inr (jsTrim_not_mem cur ' ' hc)
  | cons w rest ih =>
    intro t ht
    unfold wrapAux at ht
    by_cases hlen : 42 < (cur ++ ' ' :: w).length
    · rw [if_pos hlen] at ht
      rcases List.mem_cons.mp ht with rfl | ht
      · rcases hcur with hc | hc
        · exact Or.inl ((jsTrim_length_le cur).trans hc)
        · exact Or.inr (jsTrim_not_mem cur ' ' hc)
      · exact ih w (fun v hv => hws v (by simp [hv]))
          (Or.inr (hws w (by simp))) t ht
    · rw [if_neg hlen] at ht
      exact ih (cur ++ ' ' :: w) (fun v hv => hws v (by simp [hv]))
        (Or.inl (Nat.le_of_not_lt hlen)) t ht

/-- C9 (amended): for scripts with nonnegative start times and durations
(always the case for generated scripts), every cue's end timestamp
exceeds its start timestamp by the line's duration to within the
millisecond rounding of the `HH:MM:SS,mmm` format; no cue has more than
2 text lines; and every text line is at most 42 characters long unless
it is a single word (containing no space) longer than 42 characters,
which the greedy wrapper emits unbroken. -/
theorem claim_C9_srt_rendering (script : VoiceoverScript)
    (h : ∀ l ∈ script.lines,
      0 ≤ l.startTimeSeconds ∧ 0 ≤ l.suggestedDurationSeconds) :
    generateSRTCues script = script.lines.map srtCue ∧
    ∀ l ∈ script.lines,
      |((srtCue l).stop.denote - (srtCue l).start.denote) -
          l.suggestedDurationSeconds| ≤ 1/1000 ∧
      (srtCue l).textLines.length ≤ 2 ∧
      ∀ t ∈ (srtCue l).textLines, t.length ≤ 42 ∨ ' ' ∉ t := by
  refine ⟨rfl, fun l hl => ⟨?_, ?_, ?_⟩⟩
  · have h1 := srtStamp_denote_close l.startTimeSeconds
    have h2 := srtStamp_denote_close
      (l.startTimeSeconds + l.suggestedDurationSeconds)
    unfold srtCue
    dsimp only
    have heq : (srtStamp (l.startTimeSeconds + l.suggestedDurationSeconds)).denote -
        (srtStamp l.startTimeSeconds).denote - l.suggestedDurationSeconds =
        ((srtStamp (l.startTimeSeconds + l.suggestedDurationSeconds)).denote -
          (l.startTimeSeconds + l.suggestedDurationSeconds)) -
        ((srtStamp l.startTimeSeconds).denote - l.startTimeSeconds) := by
      ring
    rw [heq]
    calc |_ - _| ≤ |(srtStamp (l.startTimeSeconds + l.suggestedDurationSeconds)).denote -
          (l.startTimeSeconds + l.suggestedDurationSeconds)| +
        |(srtStamp l.startTimeSeconds).denote - l.startTimeSeconds| := abs_sub _ _
      _ ≤ 1/2000 + 1/2000 := add_le_add h2 h1
      _ = 1/1000 := by norm_num
  · simp [srtCue]
  · intro t ht
    simp only [srtCue] at ht
    refine wrapAux_good (splitOnSpace l.text.data) [] ?_ (Or.inl (by simp)) t
      (List.mem_of_mem_take ht)
    intro w hw hsp
    have hn := splitCharsOn_mem_not (fun c => c == ' ') l.text.data w hw ' ' hsp
    simp at hn

/-- Concrete script whose single line is one 43-character word. -/
def srtCounterScript : VoiceoverScript :=
  ⟨"L", 2, [⟨1, "reading", "aaaaaaaaaaaaaaaaaaaaaaaaaaaaaaaaaaaaaaaaaaa", [], 2, 0⟩]⟩

/-- Counterexample to C9 as stated: a 43-character whitespace-free word
produces an SRT cue text line of 43 characters, exceeding the claimed
42-character bound. -/
theorem claim_C9_counterexample :
    ∃ cue ∈ generateSRTCues srtCounterScript, ∃ t ∈ cue.textLines,
      42 < t.length := by
  refine ⟨srtCue ⟨1, "reading", "aaaaaaaaaaaaaaaaaaaaaaaaaaaaaaaaaaaaaaaaaaa", [], 2, 0⟩,
    by simp [generateSRTCues, srtCounterScript], ?_⟩
  decide

/-- Concrete script line used by the C9 witness. -/
def srtWitnessLine : ScriptLine := ⟨1, "reading", "hello world", [], 2, 0⟩

/-- Concrete script used by the C9 witness. -/
def srtWitnessScript : VoiceoverScript := ⟨"L", 2, [srtWitnessLine]⟩

/-- Witness for the amended C9 at a concrete script. -/
theorem claim_C9_srt_rendering_witness :
    |((srtCue srtWitnessLine).stop.denote - (srtCue srtWitnessLine).start.denote) -
        srtWitnessLine.suggestedDurationSeconds| ≤ 1/1000 ∧
    (srtCue srtWitnessLine).textLines.length ≤ 2 ∧
    ∀ t ∈ (srtCue srtWitnessLine).textLines, t.length ≤ 42 ∨ ' ' ∉ t :=
  (claim_C9_srt_rendering srtWitnessScript
    (by
      intro l hl
      simp [srtWitnessScript] at hl
      subst hl
      exact ⟨le_refl 0, by norm_num [srtWitnessLine]⟩)).2
    srtWitnessLine (by simp [srtWitnessScript])

/-- C5: a vocabulary-classified section emits exactly one vocabulary
slide per word, in input order, carrying the word's term / part of
speech / definition / example, each requiring an image; with no word
list it contributes no slides. -/
theorem claim_C5_vocabulary_slides (s : LessonSection)
    (h : classifySection s = "vocabulary") :
    sectionSlides s = (s.words.getD []).map mkVocabSlide ∧
    (s.words = none → sectionSlides s = []) ∧
    (∀ sl ∈ sectionSlides s, sl.requiresImage = true) := by
  have hs : sectionSlides s = (s.words.getD []).map mkVocabSlide := by
    unfold sectionSlides
    rw [h]
    cases s.words <;> simp
  refine ⟨hs, ?_, ?_⟩
  · intro hw; rw [hs, hw]; rfl
  · intro sl hsl
    rw [hs] at hsl
    rcases List.mem_map.mp hsl with ⟨w, _, rfl⟩
    rfl

/-- Concrete vocabulary section for the C5 witness. -/
def vocabWitnessSection : LessonSection :=
  ⟨"vocabulary", "Key Vocabulary", none, none, none, none, none,
   some [⟨"apple", "noun", "a round fruit", "I eat an apple.", none, none⟩]⟩

/-- Witness for C5 at a concrete one-word vocabulary section. -/
theorem claim_C5_vocabulary_slides_witness :
    sectionSlides vocabWitnessSection =
      [Slide.vocabulary "apple" "noun" "a round fruit" "I eat an apple."
        none none] :=
  (claim_C5_vocabulary_slides vocabWitnessSection (by decide)).1.trans (by decide)

/-- Helper for C3: filtering the interleaved quiz/answer pairs down to
quiz slides keeps exactly the quiz slide of each pair. -/
theorem quizPairs_filter (l : List (Nat × Question)) (tot : Nat) :
    ((l.flatMap fun p =>
      [Slide.quiz (p.1 + 1) tot (questionText p.2) (questionOptions p.2),
       Slide.answer (p.1 + 1) (answerText p.2)
         "Great job thinking about this question!"]).filter
        (fun sl => sl.type == "quiz")) =
      l.map fun p =>
        Slide.quiz (p.1 + 1) tot (questionText p.2) (questionOptions p.2) := by
  induction l with
  | nil => rfl
  | cons p rest ih =>
    rw [List.flatMap_cons, List.filter_append, ih]
    rw [show List.filter (fun sl => sl.type == "quiz")
        [Slide.quiz (p.1 + 1) tot (questionText p.2) (questionOptions p.2),
         Slide.answer (p.1 + 1) (answerText p.2)
           "Great job thinking about this question!"] =
      [Slide.quiz (p.1 + 1) tot (questionText p.2) (questionOptions p.2)]
      from rfl]
    rfl

/-- C3: a quiz-classified section with N questions emits exactly
min(N, 5) quiz slides, from the first 5 questions in input order,
numbered 1-based, each with `requiresImage = false` and
`totalQuestions = min(N, 5)`; a structured question lacking a `question`
field falls back to its JSON string rendering. -/
theorem claim_C3_quiz_slides (s : LessonSection) (qs : List Question)
    (h : classifySection s = "quiz") (hq : s.questions = some qs) :
    sectionSlides s = ((qs.take 5).enum.flatMap fun p =>
      [Slide.quiz (p.1 + 1) (min qs.length 5) (questionText p.2)
        (questionOptions p.2),
       Slide.answer (p.1 + 1) (answerText p.2)
         "Great job thinking about this question!"]) ∧
    ((sectionSlides s).filter (fun sl => sl.type == "quiz")) =
      ((qs.take 5).enum.map fun p =>
        Slide.quiz (p.1 + 1) (min qs.length 5) (questionText p.2)
          (questionOptions p.2)) ∧
    ((sectionSlides s).filter (fun sl => sl.type == "quiz")).length =
      min qs.length 5 ∧
    (∀ sl ∈ (sectionSlides s).filter (fun sl => sl.type == "quiz"),
      sl.requiresImage = false) ∧
    (∀ o a, questionText (.obj none o a) = Question.stringify (.obj none o a)) := by
  have hs : sectionSlides s = ((qs.take 5).enum.flatMap fun p =>
      [Slide.quiz (p.1 + 1) (min qs.length 5) (questionText p.2)
        (questionOptions p.2),
       Slide.answer (p.1 + 1) (answerText p.2)
         "Great job thinking about this question!"]) := by
    unfold sectionSlides
    rw [h, hq]
    rfl
  have hf := quizPairs_filter (qs.take 5).enum (min qs.length 5)
  refine ⟨hs, ?_, ?_, ?_, fun o a => rfl⟩
  · rw [hs, hf]
  · rw [hs, hf]
    simp [Nat.min_comm]
  · intro sl hsl
    rw [hs, hf] at hsl
    rcases List.mem_map.mp hsl with ⟨p, _, rfl⟩
    rfl

/-- Concrete quiz section for the C3 witness. -/
def quizWitnessSection : LessonSection :=
  ⟨"quiz", "Check", none, some [Question.str "What is 2+2?"], none, none,
   none, none⟩

/-- Witness for C3 at a concrete one-question quiz section. -/
theorem claim_C3_quiz_slides_witness :
    sectionSlides quizWitnessSection =
      [Slide.quiz 1 1 "What is 2+2?" none,
       Slide.answer 1 "See the correct answer!"
         "Great job thinking about this question!"] :=
  (claim_C3_quiz_slides quizWitnessSection [Question.str "What is 2+2?"]
    (by decide) rfl).1.trans (by decide)

/-- Helper: every slide a section's switch emits has one of the six
per-section archetypes. -/
theorem sectionSlides_type_mem (s : LessonSection) :
    ∀ sl ∈ sectionSlides s, sl.type = "vocabulary" ∨ sl.type = "grammar" ∨
      sl.type = "reading" ∨ sl.type = "example" ∨ sl.type = "quiz" ∨
      sl.type = "answer" := by
  intro sl hsl
  unfold sectionSlides at hsl
  split at hsl
  · split at hsl
    · rcases List.mem_map.mp hsl with ⟨w, _, rfl⟩
      exact Or.inl rfl
    · simp at hsl
  · split at hsl
    · simp at hsl
      subst hsl
      exact Or.inr (Or.inl rfl)
    · simp at hsl
  · split at hsl
    · simp at hsl
    · simp at hsl
      subst hsl
      exact Or.inr (Or.inr (Or.inl rfl))
  · split at hsl
    · simp at hsl
    · simp at hsl
      subst hsl
      exact Or.inr (Or.inr (Or.inl rfl))
  · split at hsl
    · simp at hsl
    · simp at hsl
      subst hsl
      exact Or.inr (Or.inr (Or.inr (Or.inl rfl)))
  · simp at hsl
  · split at hsl
    · rcases List.mem_flatMap.mp hsl with ⟨p, _, hp⟩
      rcases List.mem_cons.mp hp with rfl | hp
      · exact Or.inr (Or.inr (Or.inr (Or.inr (Or.inl rfl))))
      · rcases List.mem_cons.mp hp with rfl | hp
        · exact Or.inr (Or.inr (Or.inr (Or.inr (Or.inr rfl))))
        · simp at hp
    · simp at hsl
  · simp at hsl
  · split at hsl
    · split at hsl
      · simp at hsl
        subst hsl
        exact Or.inr (Or.inr (Or.inl rfl))
      · simp at hsl
    · simp at hsl

/-- Helper: the per-section switch never emits objectives, summary,
activity, title, hook or outro slides. -/
theorem sectionSlides_not_type (s : LessonSection) (sl : Slide)
    (hsl : sl ∈ sectionSlides s) :
    sl.type ≠ "objectives" ∧ sl.type ≠ "summary" ∧ sl.type ≠ "activity" ∧
    sl.type ≠ "title" ∧ sl.type ≠ "hook" ∧ sl.type ≠ "outro" := by
  rcases sectionSlides_type_mem s sl hsl with h | h | h | h | h | h <;>
    rw [h] <;>
    exact ⟨by decide, by decide, by decide, by decide, by decide, by decide⟩

/-- Helper for C4: the index-skipping loop equals a filter of the
enumerated section list excluding the skipped index. -/
theorem phase4_eq (skip : Option Nat) (n : Nat) (secs : List LessonSection) :
    phase4 skip n secs =
      ((List.enumFrom n secs).filter fun p => !(skip == some p.1)).flatMap
        fun p => sectionSlides p.2 := by
  induction secs generalizing n with
  | nil => rfl
  | cons s rest ih =>
    rw [phase4, ih]
    cases h : (skip == some n) <;> simp [List.enumFrom, h]

/-- Helper: every slide of the per-section loop comes from some
section's switch. -/
theorem mem_phase4 (skip : Option Nat) (n : Nat) (secs : List LessonSection)
    (sl : Slide) (h : sl ∈ phase4 skip n secs) :
    ∃ sec ∈ secs, sl ∈ sectionSlides sec := by
  rw [phase4_eq] at h
  rcases List.mem_flatMap.mp h with ⟨p, hp, hsl⟩
  exact ⟨p.2, List.snd_mem_of_mem_enumFrom (List.mem_filter.mp hp).1, hsl⟩

/-- Helper for C4: splitting an empty body yields no qualifying lines. -/
theorem objectivePieces_empty : objectivePieces "" = [] := by decide

/-- Helper for C4: with the first objectives section in hand, the
objectives phase emits one slide with the first four qualifying lines
exactly when a qualifying line exists. -/
theorem objectivesPhase_spec (secs : List LessonSection) (i : Nat)
    (sec : LessonSection)
    (h1 : secs.findIdx? (fun s => classifySection s == "objectives") = some i)
    (h2 : secs.get? i = some sec) :
    objectivesPhase secs =
      if objectivePieces (sec.content.getD "") = [] then []
      else [Slide.objectives "What You\x27ll Learn"
        ((objectivePieces (sec.content.getD "")).take 4)] := by
  unfold objectivesPhase
  rw [h1]
  dsimp only
  rw [h2]
  dsimp only
  by_cases hc : jsTruthy sec.content
  · rw [if_pos hc]
    cases hp : objectivePieces (sec.content.getD "") with
    | nil => simp
    | cons a l => simp
  · rw [if_neg hc]
    have hempty : sec.content.getD "" = "" := by
      unfold jsTruthy at hc
      simpa using hc
    rw [hempty, objectivePieces_empty]
    simp

/-- Helper: every slide of the objectives phase is an objectives slide. -/
theorem objectivesPhase_all_obj (secs : List LessonSection) :
    ∀ sl ∈ objectivesPhase secs, sl.type = "objectives" := by
  intro sl hsl
  unfold objectivesPhase at hsl
  split at hsl
  · split at hsl
    · split at hsl
      · split at hsl
        · simp at hsl; subst hsl; rfl
        · simp at hsl
      · simp at hsl
    · simp at hsl
  · simp at hsl

/-- C4: only the first objectives-classified section is consumed, and it
is excluded from the per-section phase whether or not a slide is
emitted; an objectives slide is emitted exactly when the section's body
text splits (on newline / bullet / hyphen) into at least one trimmed
piece longer than 10 characters, and it lists at most the first 4 such
pieces. -/
theorem claim_C4_objectives_consumed (t topic cefr : String)
    (focus : Option String) (secs : List LessonSection) (i : Nat)
    (sec : LessonSection)
    (h1 : secs.findIdx? (fun s => classifySection s == "objectives") = some i)
    (h2 : secs.get? i = some sec) :
    (objectivesPhase secs =
      if objectivePieces (sec.content.getD "") = [] then []
      else [Slide.objectives "What You\x27ll Learn"
        ((objectivePieces (sec.content.getD "")).take 4)]) ∧
    ((lessonToSlides t topic cefr focus secs).filter
        (fun sl => sl.type == "objectives")) = objectivesPhase secs ∧
    phase4 (some i) 0 secs =
      ((secs.enum.filter fun p => !(i == p.1)).flatMap
        fun p => sectionSlides p.2) := by
  refine ⟨objectivesPhase_spec secs i sec h1 h2, ?_, ?_⟩
  · have hobj : List.filter (fun sl => sl.type == "objectives")
        (objectivesPhase secs) = objectivesPhase secs :=
      List.filter_eq_self.mpr fun sl hsl => by
        rw [objectivesPhase_all_obj secs sl hsl]
        rfl
    have hmain : List.filter (fun sl => sl.type == "objectives")
        (phase4 (secs.findIdx? fun s => classifySection s == "objectives")
          0 secs) = [] :=
      List.filter_eq_nil_iff.mpr fun sl hsl => by
        rcases mem_phase4 _ _ _ _ hsl with ⟨sec', _, hss⟩
        simp [(sectionSlides_not_type sec' sl hss).1]
    have hsum : List.filter (fun sl => sl.type == "objectives")
        (summaryPhase (assembledBase t topic cefr focus secs)) = [] := by
      unfold summaryPhase
      split <;> rfl
    unfold lessonToSlides
    rw [List.filter_append, List.filter_append, hsum]
    unfold assembledBase
    rw [List.filter_append, List.filter_append, hobj, hmain]
    rw [show List.filter (fun sl => sl.type == "objectives")
      [Slide.title t focus cefr topic,
       Slide.hook ("Ready to master " ++ topic ++ "? Let\x27s go! 🚀")
         "teaser"] = [] from rfl]
    simp [Slide.type]
  · rw [phase4_eq]
    rfl

/-- Concrete objectives section for the C4 witness (the spec's own
example scenario). -/
def objWitnessSection : LessonSection :=
  ⟨"objectives", "Objectives",
   some "Learn greetings\nPractice introductions", none, none, none,
   none, none⟩

/-- Witness for C4: the example objectives body yields exactly its two
qualifying lines. -/
theorem claim_C4_objectives_consumed_witness :
    objectivesPhase [objWitnessSection] =
      [Slide.objectives "What You\x27ll Learn"
        ["Learn greetings", "Practice introductions"]] := by
  have h := (claim_C4_objectives_consumed "T" "Greetings" "A1" none
    [objWitnessSection] 0 objWitnessSection (by decide) rfl).1
  rw [h]
  decide

/-- Helper for C6: a slide carries a vocabulary term exactly when it is
a vocabulary slide. -/
theorem vocabTerm_isSome_iff (sl : Slide) :
    (vocabTerm sl).isSome ↔ sl.type = "vocabulary" := by
  cases sl <;> simp [vocabTerm, Slide.type]

/-- Helper for C6: the summary phase emits no vocabulary slide. -/
theorem summaryPhase_no_vocab (l : List Slide) :
    (summaryPhase l).filterMap vocabTerm = [] := by
  unfold summaryPhase
  split <;> rfl

/-- Helper for C6: every slide of the summary phase is a summary
slide. -/
theorem summaryPhase_all_summary (l : List Slide) :
    ∀ sl ∈ summaryPhase l, sl.type = "summary" := by
  intro sl hsl
  unfold summaryPhase at hsl
  split at hsl
  · simp at hsl; subst hsl; rfl
  · simp at hsl

/-- Helper for C6: the vocabulary terms of the full output are those of
the pre-summary phases. -/
theorem lessonToSlides_terms (t topic cefr : String) (focus : Option String)
    (secs : List LessonSection) :
    (lessonToSlides t topic cefr focus secs).filterMap vocabTerm =
      (assembledBase t topic cefr focus secs).filterMap vocabTerm := by
  unfold lessonToSlides
  rw [List.filterMap_append, List.filterMap_append, summaryPhase_no_vocab]
  simp [vocabTerm]

/-- Helper for C6: the summary slides of the full output are exactly the
summary phase. -/
theorem lessonToSlides_summary_filter (t topic cefr : String)
    (focus : Option String) (secs : List LessonSection) :
    (lessonToSlides t topic cefr focus secs).filter
        (fun sl => sl.type == "summary") =
      summaryPhase (assembledBase t topic cefr focus secs) := by
  have hbase : (assembledBase t topic cefr focus secs).filter
      (fun sl => sl.type == "summary") = [] := by
    refine List.filter_eq_nil_iff.mpr fun sl hsl => ?_
    unfold assembledBase at hsl
    rw [List.mem_append, List.mem_append] at hsl
    rcases hsl with (hsl | hsl) | hsl
    · rcases List.mem_cons.mp hsl with rfl | hsl
      · simp [Slide.type]
      · rcases List.mem_cons.mp hsl with rfl | hsl
        · simp [Slide.type]
        · simp at hsl
    · rw [objectivesPhase_all_obj secs sl hsl]
      simp
    · rcases mem_phase4 _ _ _ _ hsl with ⟨sec', _, hss⟩
      simp [(sectionSlides_not_type sec' sl hss).2.1]
  have hsumm : (summaryPhase (assembledBase t topic cefr focus secs)).filter
      (fun sl => sl.type == "summary") =
      summaryPhase (assembledBase t topic cefr focus secs) :=
    List.filter_eq_self.mpr fun sl hsl => by
      rw [summaryPhase_all_summary _ sl hsl]
      rfl
  unfold lessonToSlides
  rw [List.filter_append, List.filter_append, hbase, hsumm]
  simp [Slide.type]

/-- C6: the output contains a summary slide iff it contains at least one
vocabulary slide; when present there is exactly one, titled
"Key Vocabulary", whose key points are the first min(6, total) terms of
all vocabulary slides in slide order. -/
theorem claim_C6_summary_slide (t topic cefr : String) (focus : Option String)
    (secs : List LessonSection) :
    (((lessonToSlides t topic cefr focus secs).filter
        (fun sl => sl.type == "summary")).length =
      if (lessonToSlides t topic cefr focus secs).filterMap vocabTerm = []
      then 0 else 1) ∧
    (∀ ttl pts, Slide.summary ttl pts ∈ lessonToSlides t topic cefr focus secs →
      ttl = "Key Vocabulary" ∧
      pts = (((lessonToSlides t topic cefr focus secs).filterMap
        vocabTerm).take 6)) ∧
    ((∃ sl ∈ lessonToSlides t topic cefr focus secs, sl.type = "summary") ↔
      (∃ sl ∈ lessonToSlides t topic cefr focus secs, sl.type = "vocabulary")) := by
  have hterms := lessonToSlides_terms t topic cefr focus secs
  have hfilter := lessonToSlides_summary_filter t topic cefr focus secs
  have hA : lessonToSlides t topic cefr focus secs =
      assembledBase t topic cefr focus secs ++
      summaryPhase (assembledBase t topic cefr focus secs) ++
      [Slide.outro ("Great job learning about " ++ topic ++ "!")
        (some "Follow for more lessons!")] := rfl
  refine ⟨?_, ?_, ?_, ?_⟩
  · rw [hfilter, hterms]
    unfold summaryPhase
    cases h : (assembledBase t topic cefr focus secs).filterMap vocabTerm <;>
      simp [h]
  · intro ttl pts hmem
    have hmem' : Slide.summary ttl pts ∈
        (lessonToSlides t topic cefr focus secs).filter
          (fun sl => sl.type == "summary") :=
      List.mem_filter.mpr ⟨hmem, by rfl⟩
    rw [hfilter] at hmem'
    unfold summaryPhase at hmem'
    split at hmem'
    · simp at hmem'
      exact ⟨hmem'.1, by rw [hmem'.2, hterms]⟩
    · simp at hmem'
  · rintro ⟨sl, hsl, hty⟩
    have hmemf : sl ∈ (lessonToSlides t topic cefr focus secs).filter
        (fun sl => sl.type == "summary") :=
      List.mem_filter.mpr ⟨hsl, by rw [hty]; rfl⟩
    rw [hfilter] at hmemf
    unfold summaryPhase at hmemf
    split at hmemf
    case isTrue hpos =>
      rcases List.exists_mem_of_length_pos hpos with ⟨y, hy⟩
      rcases List.mem_filterMap.mp hy with ⟨x, hx, hvx⟩
      refine ⟨x, ?_, (vocabTerm_isSome_iff x).mp (by rw [hvx]; rfl)⟩
      rw [hA]
      exact List.mem_append_left _ (List.mem_append_left _ hx)
    case isFalse => simp at hmemf
  · rintro ⟨sl, hsl, hty⟩
    have hsome : (vocabTerm sl).isSome := (vocabTerm_isSome_iff sl).mpr hty
    rcases Option.isSome_iff_exists.mp hsome with ⟨c, hc⟩
    have hcmem : c ∈ (lessonToSlides t topic cefr focus secs).filterMap
        vocabTerm := List.mem_filterMap.mpr ⟨sl, hsl, hc⟩
    have hpos : 0 < ((assembledBase t topic cefr focus secs).filterMap
        vocabTerm).length := by
      rw [← hterms]
      exact List.length_pos.mpr (List.ne_nil_of_mem hcmem)
    refine ⟨Slide.summary "Key Vocabulary"
      (((assembledBase t topic cefr focus secs).filterMap vocabTerm).take 6),
      ?_, rfl⟩
    rw [hA]
    refine List.mem_append_left _ (List.mem_append_right _ ?_)
    unfold summaryPhase
    rw [if_pos hpos]
    simp

/-- Witness for C6 at a concrete one-word lesson. -/
theorem claim_C6_summary_slide_witness :
    "Key Vocabulary" = "Key Vocabulary" ∧
    ["apple"] = (((lessonToSlides "Food Vocabulary" "Food" "A2" none
      [vocabWitnessSection]).filterMap vocabTerm).take 6) :=
  (claim_C6_summary_slide "Food Vocabulary" "Food" "A2" none
    [vocabWitnessSection]).2.1 "Key Vocabulary" ["apple"] (by decide)

/-- All questions of all sections of a lesson, in order. -/
def allQuestions (secs : List LessonSection) : List Question :=
  secs.flatMap fun s => s.questions.getD []

/-- Every quiz slide of `l` is immediately followed by the answer slide
of the same question, with the fixed encouragement string, the answer
drawn from a question of `qs` by `answerText` (the extracted answer, or
the placeholder when absent or empty). -/
def quizAnswerPaired (qs : List Question) (l : List Slide) : Prop :=
  ∀ i qn tot qst opts, l[i]? = some (Slide.quiz qn tot qst opts) →
    ∃ q ∈ qs, qst = questionText q ∧ opts = questionOptions q ∧
      l[i + 1]? = some (Slide.answer qn (answerText q)
        "Great job thinking about this question!")

/-- Helper for C10: pairing is preserved by concatenation, since a
paired quiz slide always has its answer inside the same part. -/
theorem quizAnswerPaired_append (qs : List Question) (xs ys : List Slide)
    (hx : quizAnswerPaired qs xs) (hy : quizAnswerPaired qs ys) :
    quizAnswerPaired qs (xs ++ ys) := by
  intro i qn tot qst opts hq
  rcases Nat.lt_or_ge i xs.length with h | h
  · rw [List.getElem?_append_left h] at hq
    rcases hx i qn tot qst opts hq with ⟨q, hqmem, h1, h2, hnext⟩
    have hlt : i + 1 < xs.length := (List.getElem?_eq_some.mp hnext).1
    exact ⟨q, hqmem, h1, h2, by rw [List.getElem?_append_left hlt]; exact hnext⟩
  · rw [List.getElem?_append_right h] at hq
    rcases hy (i - xs.length) qn tot qst opts hq with ⟨q, hqmem, h1, h2, hnext⟩
    refine ⟨q, hqmem, h1, h2, ?_⟩
    rw [List.getElem?_append_right (by omega : xs.length ≤ i + 1)]
    rw [show i + 1 - xs.length = (i - xs.length) + 1 by omega]
    exact hnext

/-- Helper for C10: a list without quiz slides is vacuously paired. -/
theorem quizAnswerPaired_of_no_quiz (qs : List Question) (l : List Slide)
    (h : ∀ sl ∈ l, sl.type ≠ "quiz") : quizAnswerPaired qs l := by
  intro i qn tot qst opts hq
  exact absurd rfl (h _ (List.getElem?_mem hq))

/-- Helper for C10: pairing is monotone in the question pool. -/
theorem quizAnswerPaired_mono (qs qs' : List Question) (l : List Slide)
    (hsub : ∀ q ∈ qs, q ∈ qs') (h : quizAnswerPaired qs l) :
    quizAnswerPaired qs' l := by
  intro i qn tot qst opts hq
  rcases h i qn tot qst opts hq with ⟨q, hqmem, rest⟩
  exact ⟨q, hsub q hqmem, rest⟩

/-- Helper for C10: the interleaved quiz/answer block built from an
enumerated question list is paired. -/
theorem quizAnswerPaired_block (qs : List Question) (tot : Nat)
    (el : List (Nat × Question)) (hel : ∀ p ∈ el, p.2 ∈ qs) :
    quizAnswerPaired qs (el.flatMap fun p =>
      [Slide.quiz (p.1 + 1) tot (questionText p.2) (questionOptions p.2),
       Slide.answer (p.1 + 1) (answerText p.2)
         "Great job thinking about this question!"]) := by
  induction el with
  | nil => intro i qn tot' qst opts hq; simp at hq
  | cons p rest ih =>
    intro i qn tot' qst opts hq
    rw [List.flatMap_cons] at hq ⊢
    match i with
    | 0 =>
      simp only [List.cons_append, List.getElem?_cons_zero, Option.some.injEq,
        Slide.quiz.injEq] at hq
      obtain ⟨h1, h2, h3, h4⟩ := hq
      subst h1; subst h3; subst h4
      exact ⟨p.2, hel p (by simp), rfl, rfl, by simp⟩
    | 1 =>
      simp at hq
    | (j + 2) =>
      simp only [List.cons_append, List.getElem?_cons_succ] at hq ⊢
      exact ih (fun v hv => hel v (by simp [hv])) j qn tot' qst opts hq

/-- Helper for C10: the slides a section emits are paired over
the questions of that section. -/
theorem sectionSlides_paired (s : LessonSection) :
    quizAnswerPaired (s.questions.getD []) (sectionSlides s) := by
  unfold sectionSlides
  split
  · split
    · refine quizAnswerPaired_of_no_quiz _ _ fun sl hsl => ?_
      rcases List.mem_map.mp hsl with ⟨w, _, rfl⟩
      simp [mkVocabSlide, Slide.type]
    · exact quizAnswerPaired_of_no_quiz _ _ (by simp)
  · split
    · refine quizAnswerPaired_of_no_quiz _ _ fun sl hsl => ?_
      simp at hsl
      subst hsl
      simp [Slide.type]
    · exact quizAnswerPaired_of_no_quiz _ _ (by simp)
  · split
    · exact quizAnswerPaired_of_no_quiz _ _ (by simp)
    · refine quizAnswerPaired_of_no_quiz _ _ fun sl hsl => ?_
      simp at hsl
      subst hsl
      simp [Slide.type]
  · split
    · exact quizAnswerPaired_of_no_quiz _ _ (by simp)
    · refine quizAnswerPaired_of_no_quiz _ _ fun sl hsl => ?_
      simp at hsl
      subst hsl
      simp [Slide.type]
  · split
    · exact quizAnswerPaired_of_no_quiz _ _ (by simp)
    · refine quizAnswerPaired_of_no_quiz _ _ fun sl hsl => ?_
      simp at hsl
      subst hsl
      simp [Slide.type]
  · exact quizAnswerPaired_of_no_quiz _ _ (by simp)
  · next hq =>
    split
    · next qs hqs =>
      rw [hqs]
      simp only [Option.getD_some]
      refine quizAnswerPaired_block qs (min qs.length 5) _ fun p hp => ?_
      exact List.mem_of_mem_take (List.snd_mem_of_mem_enumFrom hp)
    · exact quizAnswerPaired_of_no_quiz _ _ (by simp)
  · exact quizAnswerPaired_of_no_quiz _ _ (by simp)
  · split
    · split
      · refine quizAnswerPaired_of_no_quiz _ _ fun sl hsl => ?_
        simp at hsl
        subst hsl
        simp [Slide.type]
      · exact quizAnswerPaired_of_no_quiz _ _ (by simp)
    · exact quizAnswerPaired_of_no_quiz _ _ (by simp)

/-- Helper for C10: the per-section loop is paired over any pool
containing the questions of every section. -/
theorem phase4_paired (S : List Question) (skip : Option Nat) (n : Nat)
    (secs : List LessonSection)
    (hsub : ∀ sec ∈ secs, ∀ q ∈ sec.questions.getD [], q ∈ S) :
    quizAnswerPaired S (phase4 skip n secs) := by
  induction secs generalizing n with
  | nil => exact quizAnswerPaired_of_no_quiz _ _ (by simp [phase4])
  | cons s rest ih =>
    rw [phase4]
    refine quizAnswerPaired_append _ _ _ ?_
      (ih (n + 1)
        (fun sec hsec q hq => hsub sec (List.mem_cons_of_mem _ hsec) q hq))
    split
    · exact quizAnswerPaired_of_no_quiz _ _ (by simp)
    · exact quizAnswerPaired_mono _ _ _ (fun q hq => hsub s (by simp) q hq)
        (sectionSlides_paired s)

/-- C10: the assembler of routes.ts resolves the engine-variant
policies of the spec as follows: a hook slide is unconditionally the second slide;
activity-classified sections are always skipped, so no activity slide
ever appears; and every quiz slide is immediately followed by an answer
slide whose correctAnswer is the extracted answer of the question or the
placeholder "See the correct answer!" and whose explanation is the fixed
encouragement string. -/
theorem claim_C10_fixed_policies (t topic cefr : String)
    (focus : Option String) (secs : List LessonSection) :
    (lessonToSlides t topic cefr focus secs)[1]? =
      some (Slide.hook ("Ready to master " ++ topic ++ "? Let\x27s go! 🚀")
        "teaser") ∧
    (∀ sl ∈ lessonToSlides t topic cefr focus secs, sl.type ≠ "activity") ∧
    quizAnswerPaired (allQuestions secs)
      (lessonToSlides t topic cefr focus secs) := by
  refine ⟨?_, ?_, ?_⟩
  · simp [lessonToSlides, assembledBase]
  · intro sl hsl
    unfold lessonToSlides assembledBase at hsl
    rw [List.mem_append, List.mem_append, List.mem_append, List.mem_append]
      at hsl
    rcases hsl with ((((hsl | hsl) | hsl) | hsl) | hsl)
    · rcases List.mem_cons.mp hsl with rfl | hsl
      · simp [Slide.type]
      · rcases List.mem_cons.mp hsl with rfl | hsl
        · simp [Slide.type]
        · simp at hsl
    · rw [objectivesPhase_all_obj secs sl hsl]
      simp
    · exact (sectionSlides_not_type _ sl
        (mem_phase4 _ _ _ _ hsl).choose_spec.2).2.2.1
    · rw [summaryPhase_all_summary _ sl hsl]
      simp
    · rcases List.mem_cons.mp hsl with rfl | hsl
      · simp [Slide.type]
      · simp at hsl
  · unfold lessonToSlides assembledBase
    refine quizAnswerPaired_append _ _ _
      (quizAnswerPaired_append _ _ _
        (quizAnswerPaired_append _ _ _
          (quizAnswerPaired_append _ _ _ ?_ ?_) ?_) ?_) ?_
    · refine quizAnswerPaired_of_no_quiz _ _ fun sl hsl => ?_
      rcases List.mem_cons.mp hsl with rfl | hsl
      · simp [Slide.type]
      · rcases List.mem_cons.mp hsl with rfl | hsl
        · simp [Slide.type]
        · simp at hsl
    · refine quizAnswerPaired_of_no_quiz _ _ fun sl hsl => ?_
      rw [objectivesPhase_all_obj secs sl hsl]
      simp
    · refine phase4_paired _ _ _ _ fun sec hsec q hq => ?_
      exact List.mem_flatMap.mpr ⟨sec, hsec, hq⟩
    · refine quizAnswerPaired_of_no_quiz _ _ fun sl hsl => ?_
      rw [summaryPhase_all_summary _ sl hsl]
      simp
    · refine quizAnswerPaired_of_no_quiz _ _ fun sl hsl => ?_
      rcases List.mem_cons.mp hsl with rfl | hsl
      · simp [Slide.type]
      · simp at hsl

/-- Concrete quiz section for the C10 witness. -/
def quizAnswerWitnessSection : LessonSection :=
  ⟨"quiz", "Quiz", none,
   some [Question.obj (some "2+2?") (some ["3", "4"]) (some "4")],
   none, none, none, none⟩

/-- Witness for C10: in a concrete lesson the quiz slide at index 2 is
followed by its answer slide. -/
theorem claim_C10_fixed_policies_witness :
    ∃ q ∈ allQuestions [quizAnswerWitnessSection],
      "2+2?" = questionText q ∧ (some ["3", "4"]) = questionOptions q ∧
      (lessonToSlides "T" "Math" "A1" none [quizAnswerWitnessSection])[2 + 1]? =
        some (Slide.answer 1 (answerText q)
          "Great job thinking about this question!") :=
  (claim_C10_fixed_policies "T" "Math" "A1" none
    [quizAnswerWitnessSection]).2.2 2 1 1 "2+2?" (some ["3", "4"]) (by decide)
